import Mathlib

/-!
# Smart_Planner backend — shallow embedding and verification

This file embeds the task-lifecycle, tag-resolution, pagination and
gamification logic of the Smart_Planner web backend
(`smart_planner_web_backend/app`) as executable Lean definitions and proves
properties about them.

Embedding conventions:
* SQLAlchemy tables become Lean lists inside a `DB` record; `flush`/`commit`
  identifier assignment is modelled by explicit `next_*_id` counters, and the
  session's autoflush (pending changes visible to later queries in the same
  call) is modelled by threading the updated lists.
* Python `datetime` values are abstract `Nat` instants supplied by callers.
* Python truthiness (`if x:`) on `Optional[int]` / `Optional[str]` is
  modelled by `optNatTruthy` / `optStrTruthy`: `None`, `0` and `""` are falsy.
* Python float division in the XP formula is modelled by exact division in
  `ℚ`; for the integer ranges admitted by the schemas (estimated minutes
  capped at 480) the float comparisons against `1.2` and `0.8` agree with
  the exact rational ones.
* Fallible Python code (`raise`, `TypeError`) returns `Option` / `Except`.
-/

namespace SP

/-- `models.TaskStatus`. -/
inductive TaskStatus where
  | todo
  | in_progress
  | review
  | done
deriving DecidableEq, Repr

/-- `models.TaskPriority`. -/
inductive TaskPriority where
  | low
  | medium
  | high
  | critical
deriving DecidableEq, Repr

/-- The `tasks` table row (`models.Task`), restricted to the columns the
verified operations read or write.  `tags` holds the ids of associated tags
(the `task_tags` association rows for this task). -/
structure Task where
  id : Nat
  title : String
  description : Option String := none
  detailed_instructions : Option String := none
  priority : TaskPriority := .medium
  status : TaskStatus := .todo
  difficulty : String := "medium"
  estimated_minutes : Option Nat := none
  actual_minutes : Option Nat := none
  due_date : Option Nat := none
  ai_generated : Bool := false
  ai_feedback : Option String := none
  owner_id : String
  tags : List Nat := []
  created_at : Nat := 0
  updated_at : Nat := 0
  completed_at : Option Nat := none
deriving DecidableEq, Repr

/-- The `tags` table row (`models.Tag`); `color` defaults to `"#3B82F6"` in
the model and `user_id` is nullable. -/
structure Tag where
  id : Nat
  name : String
  color : String := "#3B82F6"
  user_id : Option String := none
deriving DecidableEq, Repr

/-- The database state threaded through the service calls. -/
structure DB where
  tasks : List Task := []
  tags : List Tag := []
  next_task_id : Nat := 1
  next_tag_id : Nat := 1
deriving DecidableEq, Repr

/-- Python truthiness of an `Optional[int]`: `None` and `0` are falsy. -/
def optNatTruthy : Option Nat → Bool
  | none => false
  | some n => decide (n ≠ 0)

/-- Python truthiness of an `Optional[str]`: `None` and `""` are falsy. -/
def optStrTruthy : Option String → Bool
  | none => false
  | some s => decide (s ≠ "")

/-- Python `str.strip()`: drop whitespace from both ends (modelled on the
character list so it is kernel-computable). -/
def pyStrip (s : String) : String :=
  ⟨(((s.data.dropWhile Char.isWhitespace).reverse).dropWhile Char.isWhitespace).reverse⟩

/-- Python `str.lower()`. -/
def pyLower (s : String) : String :=
  ⟨s.data.map Char.toLower⟩

/-! ## Gamification engine (`services/task_service.py`, `complete_task`) -/

/-- Base XP by difficulty, as computed at the top of
`TaskService.complete_task`: start at 10, override to 25 for `"hard"` and
15 for `"medium"`. -/
def baseXp (difficulty : String) : Nat :=
  if difficulty = "hard" then 25
  else if difficulty = "medium" then 15
  else 10

/-- The XP computation of `TaskService.complete_task` (lines 101-114): the
efficiency adjustment runs only when both minute fields are truthy
(non-`None` and nonzero); `efficiency = estimated / max(actual, 1)`,
`> 1.2` gives `+5`, `< 0.8` gives `-5` floored at 5. -/
def xpReward (difficulty : String) (est act : Option Nat) : Nat :=
  let xp := baseXp difficulty
  if optNatTruthy est && optNatTruthy act then
    let e := est.getD 0
    let a := act.getD 0
    let efficiency : ℚ := (e : ℚ) / (max a 1 : ℚ)
    if (12 : ℚ) / 10 < efficiency then xp + 5
    else if efficiency < (8 : ℚ) / 10 then max (xp - 5) 5
    else xp
  else xp

/-- Modelled from the spec: the reference XP formula of spec §4.4 as the
claim states it — the adjustment applies whenever both minute fields are
*known* (non-`None`), with `actual = 0` treated as `actual = 1`. -/
def xpRewardSpecFormula (difficulty : String) (est act : Option Nat) : Nat :=
  let xp := baseXp difficulty
  match est, act with
  | some e, some a =>
    let efficiency : ℚ := (e : ℚ) / (max a 1 : ℚ)
    if (12 : ℚ) / 10 < efficiency then xp + 5
    else if efficiency < (8 : ℚ) / 10 then max (xp - 5) 5
    else xp
  | _, _ => xp

/-- `TaskService._check_task_achievements` (`task_service.py` lines
175-206): the completed-task count is taken over the owner's tasks in the
session state (autoflushed, so it includes the completion being processed),
and the four predicates append their names in source order. -/
def checkTaskAchievements (tasks : List Task) (userId : String) (task : Task) : List String :=
  let completed := tasks.filter (fun t => t.owner_id == userId && t.status == TaskStatus.done)
  (if completed.length = 1 then ["First Task Completed"] else [])
    ++ (if completed.length = 10 then ["Productivity Pro"] else [])
    ++ (if task.difficulty = "hard" then ["Challenge Accepted"] else [])
    ++ (if optNatTruthy task.estimated_minutes && optNatTruthy task.actual_minutes
          && decide (((task.estimated_minutes.getD 0 : Int) - (task.actual_minutes.getD 0 : Int)).natAbs ≤ 5)
        then ["Time Management Expert"] else [])

/-- `TaskService.complete_task` (`task_service.py` lines 95-123).  The
Python method receives the ORM `Task` instance; the embedding locates it by
id in the session state.  It unconditionally sets `status`, `completed_at`
and `updated_at`, computes the XP reward, and evaluates the achievement
predicates against the flushed state.  Returns
`(task, xp_reward, achievements_unlocked, db)`. -/
def completeTaskV1 (db : DB) (taskId : Nat) (userId : String) (now : Nat) :
    Option (Task × Nat × List String × DB) :=
  match db.tasks.find? (fun t => t.id == taskId) with
  | none => none
  | some t =>
    let t' := { t with status := .done, completed_at := some now, updated_at := now }
    let tasks' := db.tasks.map (fun x => if x.id = taskId then t' else x)
    let xp := xpReward t'.difficulty t'.estimated_minutes t'.actual_minutes
    let ach := checkTaskAchievements tasks' userId t'
    some (t', xp, ach, { db with tasks := tasks' })

/-! ## Tag resolution -/

/-- `session.add` + flush of a new tag row: append it and advance the id
counter. -/
def insertTag (db : DB) (t : Tag) : DB :=
  { db with tags := db.tags ++ [t], next_tag_id := db.next_tag_id + 1 }

/-- `TaskService._get_or_create_tag` (`task_service.py` lines 160-173):
lookup by exact `name` *and* `user_id`; on a miss, add a new `Tag` carrying
the raw (untrimmed) name, that owner, and the model-default color.  Returns
the tag id and the updated state. -/
def getOrCreateTagV1 (db : DB) (tagName userId : String) : Nat × DB :=
  match db.tags.find? (fun t => t.name == tagName && t.user_id == some userId) with
  | some t => (t.id, db)
  | none =>
    (db.next_tag_id, insertTag db { id := db.next_tag_id, name := tagName, user_id := some userId })

/-- The loop body of `tasks_utils.resolve_or_create_tags` (lines 65-89):
skip falsy and whitespace-only names, dedupe on the lower-cased trimmed key
within the call, look an existing tag up by exact trimmed name only (no
owner filter), and otherwise insert a tag with the trimmed name, no owner,
and the default color, flushing immediately so its id is assigned. -/
def resolveTagsLoop : List String → DB → List String → List Tag → List Tag × DB
  | [], db, _, acc => (acc.reverse, db)
  | name :: rest, db, seen, acc =>
    if name = "" then resolveTagsLoop rest db seen acc
    else if pyStrip name = "" then resolveTagsLoop rest db seen acc
    else if seen.contains (pyLower (pyStrip name)) then resolveTagsLoop rest db seen acc
    else
      match db.tags.find? (fun t => t.name == pyStrip name) with
      | some t => resolveTagsLoop rest db (pyLower (pyStrip name) :: seen) (t :: acc)
      | none =>
        resolveTagsLoop rest (insertTag db { id := db.next_tag_id, name := pyStrip name })
          (pyLower (pyStrip name) :: seen)
          ({ id := db.next_tag_id, name := pyStrip name } :: acc)

/-- `tasks_utils.resolve_or_create_tags` (lines 46-89); a falsy `tag_names`
(`None` or `[]`) yields the empty list. -/
def resolveOrCreateTags (db : DB) (tagNames : Option (List String)) : List Tag × DB :=
  match tagNames with
  | none => ([], db)
  | some names => if names = [] then ([], db) else resolveTagsLoop names db [] []

/-! ## Task service v2 (`services/task_service_v2.py`) -/

/-- Replace the row with the id of `t'` (unique primary key). -/
def replaceTask (tasks : List Task) (t' : Task) : List Task :=
  tasks.map (fun x => if x.id = t'.id then t' else x)

/-- `TaskService.get_task` (`task_service_v2.py` lines 72-78): select by
`id` *and* `owner_id`. -/
def getTaskV2 (db : DB) (taskId : Nat) (userId : String) : Option Task :=
  db.tasks.find? (fun t => t.id == taskId && t.owner_id == userId)

/-- `schemas_v2.TaskCreate` payload (tag names attached as-is, no
trimming). -/
structure TaskCreateV2 where
  title : String
  description : Option String := none
  priority : TaskPriority := .medium
  due_date : Option Nat := none
  estimated_minutes : Option Nat := none
  tags : List String := []
deriving Repr

/-- One iteration of the inline tag loop in `TaskService.create_task`
(`task_service_v2.py` lines 45-57): lookup by exact name *and* owner; on a
miss, add a tag with that owner (default color), visible to the later
iterations of the same call. -/
def createTagsStepV2 (userId : String) (acc : List Nat × List Tag × Nat)
    (tagName : String) : List Nat × List Tag × Nat :=
  match acc.2.1.find? (fun t => t.name == tagName && t.user_id == some userId) with
  | some t => (acc.1 ++ [t.id], acc.2.1, acc.2.2)
  | none =>
    let t : Tag := { id := acc.2.2, name := tagName, user_id := some userId }
    (acc.1 ++ [t.id], acc.2.1 ++ [t], acc.2.2 + 1)

/-- `TaskService.create_task` (`task_service_v2.py` lines 23-70): builds the
row with `status=TODO` and the model defaults (`difficulty="medium"`,
`ai_generated=False`, `completed_at=None`), attaches tags, and commits. -/
def createTaskV2 (db : DB) (tin : TaskCreateV2) (userId : String) (now : Nat) : Task × DB :=
  let r := tin.tags.foldl (createTagsStepV2 userId) ([], db.tags, db.next_tag_id)
  let task : Task :=
    { id := db.next_task_id, title := tin.title, description := tin.description,
      priority := tin.priority, due_date := tin.due_date,
      estimated_minutes := tin.estimated_minutes, owner_id := userId,
      status := .todo, tags := r.1, created_at := now, updated_at := now }
  (task, { tasks := db.tasks ++ [task], tags := r.2.1,
           next_task_id := db.next_task_id + 1, next_tag_id := r.2.2 })

/-- `schemas_v2.TaskUpdate` with pydantic `exclude_unset` presence
semantics: the outer `Option` is "was the field present in the patch", the
inner value is what was sent (itself nullable for nullable columns). -/
structure TaskUpdateV2 where
  title : Option String := none
  description : Option (Option String) := none
  priority : Option TaskPriority := none
  status : Option TaskStatus := none
  due_date : Option (Option Nat) := none
  estimated_minutes : Option (Option Nat) := none
  actual_minutes : Option (Option Nat) := none
deriving Repr

/-- The `setattr` loop of `TaskService.update_task` (`task_service_v2.py`
lines 133-139): every present patch field is assigned verbatim; no other
column (in particular `completed_at`) is touched. -/
def applyUpdateV2 (t : Task) (u : TaskUpdateV2) : Task :=
  let t := match u.title with | some v => { t with title := v } | none => t
  let t := match u.description with | some v => { t with description := v } | none => t
  let t := match u.priority with | some v => { t with priority := v } | none => t
  let t := match u.status with | some v => { t with status := v } | none => t
  let t := match u.due_date with | some v => { t with due_date := v } | none => t
  let t := match u.estimated_minutes with | some v => { t with estimated_minutes := v } | none => t
  let t := match u.actual_minutes with | some v => { t with actual_minutes := v } | none => t
  t

/-- `TaskService.update_task` (`task_service_v2.py` lines 122-151). -/
def updateTaskV2 (db : DB) (taskId : Nat) (u : TaskUpdateV2) (userId : String)
    (now : Nat) : Option (Task × DB) :=
  match getTaskV2 db taskId userId with
  | none => none
  | some t =>
    let t' := { applyUpdateV2 t u with updated_at := now }
    some (t', { db with tasks := replaceTask db.tasks t' })

/-- `TaskService.delete_task` (`task_service_v2.py` lines 153-167): returns
whether a row was removed. -/
def deleteTaskV2 (db : DB) (taskId : Nat) (userId : String) : Bool × DB :=
  match getTaskV2 db taskId userId with
  | none => (false, db)
  | some t => (true, { db with tasks := db.tasks.filter (fun x => !(x.id == t.id)) })

/-- `TaskService.complete_task` (`task_service_v2.py` lines 169-193): sets
`status=DONE` and `completed_at`, overwrites `actual_minutes` only when the
argument is truthy, and commits (the column-level `onupdate` refreshes
`updated_at`). -/
def completeTaskV2 (db : DB) (taskId : Nat) (userId : String)
    (actualTimeMinutes : Option Nat) (now : Nat) : Option (Task × DB) :=
  match getTaskV2 db taskId userId with
  | none => none
  | some t =>
    let t1 := { t with status := .done, completed_at := some now }
    let t2 := if optNatTruthy actualTimeMinutes
              then { t1 with actual_minutes := actualTimeMinutes } else t1
    let t3 := { t2 with updated_at := now }
    some (t3, { db with tasks := replaceTask db.tasks t3 })

/-- Case-insensitive substring match, the semantics of
`column.ilike(f"%{search}%")` for a non-empty search string. -/
def ilikeContains (haystack pattern : String) : Bool :=
  decide ((haystack.toLower.splitOn pattern.toLower).length > 1)

/-- The filter block of `TaskService.get_user_tasks` (`task_service_v2.py`
lines 90-102): owner always; status/priority only when truthy (enum members
are always truthy); search only when a non-empty string, matching title OR
description case-insensitively (a NULL description never matches). -/
def matchesFiltersV2 (userId : String) (status : Option TaskStatus)
    (priority : Option TaskPriority) (search : Option String) (t : Task) : Bool :=
  t.owner_id == userId
    && (match status with | none => true | some s => t.status == s)
    && (match priority with | none => true | some p => t.priority == p)
    && (match search with
        | none => true
        | some s =>
          if s = "" then true
          else ilikeContains t.title s
            || (match t.description with | none => false | some d => ilikeContains d s))

/-- The string SQLAlchemy's `Enum(TaskPriority)` stores: the *name* of the
enum member, which is what `ORDER BY priority` compares. -/
def prioritySqlName : TaskPriority → String
  | .low => "LOW"
  | .medium => "MEDIUM"
  | .high => "HIGH"
  | .critical => "CRITICAL"

/-- Sort key for `due_date DESC`: SQLite sorts NULL below every value, so
NULL comes last in descending order. -/
def dueDateSqlKey : Option Nat → Int
  | none => -1
  | some d => d

/-- The `ORDER BY due_date DESC, priority DESC` comparator
(`task_service_v2.py` line 113), with a stable sort standing in for the
unspecified database tie-break. -/
def taskOrdLe (a b : Task) : Bool :=
  if dueDateSqlKey a.due_date ≠ dueDateSqlKey b.due_date then
    decide (dueDateSqlKey b.due_date < dueDateSqlKey a.due_date)
  else decide (prioritySqlName b.priority ≤ prioritySqlName a.priority)

/-- `taskOrdLe` as a decidable relation for `List.insertionSort`. -/
def taskLe (a b : Task) : Prop := taskOrdLe a b = true

instance : DecidableRel taskLe := fun a b =>
  inferInstanceAs (Decidable (taskOrdLe a b = true))

/-- `TaskService.get_user_tasks` (`task_service_v2.py` lines 80-120):
`total` is the length of the filtered set before pagination; the page is
the ordered filtered set after `OFFSET skip LIMIT limit`. -/
def getUserTasksV2 (db : DB) (userId : String) (status : Option TaskStatus)
    (priority : Option TaskPriority) (skip limit : Nat) (search : Option String) :
    List Task × Nat :=
  let filtered := db.tasks.filter (matchesFiltersV2 userId status priority search)
  let total := filtered.length
  let ordered := List.insertionSort taskLe filtered
  ((ordered.drop skip).take limit, total)

/-! ## Task service v1 (`services/task_service.py`) create / update -/

/-- One iteration of the v1 tag-attachment loop (`task_service.py` lines
29-32 and 70-74): resolve the name through `_get_or_create_tag` and append
the tag to the task's association list. -/
def attachTagsV1 (userId : String) (acc : Task × DB) (tagName : String) : Task × DB :=
  let r := getOrCreateTagV1 acc.2 tagName userId
  ({ acc.1 with tags := acc.1.tags ++ [r.1] }, r.2)

/-- A parsed element of the AI breakdown response used by
`create_task` (`task_service.py` lines 46-50). -/
structure Subtask where
  title : String
  estimated_time : Option Nat := none
deriving Repr

/-- The f-string `"- {s['title']} ({s.get('estimated_time', '?')} min)"`. -/
def formatSuggestion (s : Subtask) : String :=
  "- " ++ s.title ++ " (" ++ (match s.estimated_time with
    | some n => toString n
    | none => "?") ++ " min)"

/-- `schemas.TaskCreate` payload (v1), after
`model_dump(exclude={"tags", "subtasks", "is_recurring", "recurrence_rule"})`
the remaining keys are the `TaskBase` fields, including `deadline`. -/
structure TaskCreateV1 where
  title : String
  description : Option String := none
  priority : TaskPriority := .medium
  status : TaskStatus := .todo
  difficulty : String := "medium"
  estimated_minutes : Option Nat := none
  deadline : Option Nat := none
  tags : List String := []
deriving Repr

/-- The column keys accepted by the `models.Task` declarative constructor. -/
def taskModelColumns : List String :=
  ["id", "title", "description", "detailed_instructions", "priority", "status",
   "difficulty", "estimated_minutes", "actual_minutes", "due_date",
   "is_recurring", "recurrence_rule", "ai_generated", "ai_feedback",
   "owner_id", "parent_task_id", "study_session_id", "created_at",
   "updated_at", "completed_at"]

/-- The keys `task_in.model_dump(exclude={"tags", "subtasks",
"is_recurring", "recurrence_rule"})` produces in
`TaskService.create_task` (`task_service.py` line 25). -/
def taskCreateV1DumpKeys : List String :=
  ["title", "description", "priority", "status", "difficulty",
   "estimated_minutes", "deadline"]

/-- `TaskService.create_task` (`task_service.py` lines 22-58).  The
declarative `Task(**task_data, owner_id=...)` constructor raises `TypeError`
on any key that is not a mapped column; the remaining body (tag attachment,
the guarded best-effort AI breakdown whose failure is swallowed by the bare
`except`, flush and refresh) is embedded after that check.  The AI call
outcome is the `ai` argument. -/
def createTaskV1 (db : DB) (tin : TaskCreateV1) (userId : String)
    (ai : Except String (List Subtask)) (now : Nat) : Except String (Task × DB) :=
  match taskCreateV1DumpKeys.find? (fun k => !(taskModelColumns.contains k)) with
  | some k => .error (k ++ " is an invalid keyword argument for Task")
  | none =>
    let task : Task :=
      { id := db.next_task_id, title := tin.title, description := tin.description,
        priority := tin.priority, status := tin.status, difficulty := tin.difficulty,
        estimated_minutes := tin.estimated_minutes, owner_id := userId,
        created_at := now, updated_at := now }
    let r := tin.tags.foldl (attachTagsV1 userId) (task, db)
    let task := r.1
    let db := r.2
    let task :=
      if optStrTruthy tin.description && decide ((tin.description.getD "").length > 50) then
        match ai with
        | .ok suggestions =>
          let note := String.intercalate "\n" ((suggestions.take 3).map formatSuggestion)
          { task with detailed_instructions := some note }
        | .error _ => task
      else task
    .ok (task, { db with tasks := db.tasks ++ [task], next_task_id := db.next_task_id + 1 })

/-- `schemas.TaskUpdate` (v1) with `exclude_unset` presence semantics. -/
structure TaskUpdateV1 where
  title : Option String := none
  description : Option (Option String) := none
  priority : Option TaskPriority := none
  status : Option TaskStatus := none
  difficulty : Option String := none
  estimated_minutes : Option (Option Nat) := none
  actual_minutes : Option (Option Nat) := none
  deadline : Option (Option Nat) := none
  tags : Option (List String) := none
  ai_feedback : Option (Option String) := none
deriving Repr

/-- The `setattr` loop of v1 `update_task` (`task_service.py` lines 62-67):
`model_dump(exclude_unset=True, exclude={"tags", "ai_feedback"})`, and
`hasattr` filters out `deadline` (the `Task` model has no such attribute). -/
def applyUpdateV1 (t : Task) (u : TaskUpdateV1) : Task :=
  let t := match u.title with | some v => { t with title := v } | none => t
  let t := match u.description with | some v => { t with description := v } | none => t
  let t := match u.priority with | some v => { t with priority := v } | none => t
  let t := match u.status with | some v => { t with status := v } | none => t
  let t := match u.difficulty with | some v => { t with difficulty := v } | none => t
  let t := match u.estimated_minutes with | some v => { t with estimated_minutes := v } | none => t
  let t := match u.actual_minutes with | some v => { t with actual_minutes := v } | none => t
  t

/-- `TaskService.update_task` (`task_service.py` lines 60-93): apply the
patch, replace the tag set when present, then request AI feedback only when
the patch sets status to done while the (already patched) row is not done
and has a description — the AI failure is swallowed.  `updated_at` is
always refreshed. -/
def updateTaskV1 (db : DB) (taskId : Nat) (u : TaskUpdateV1) (userId : String)
    (aiFeedback : Except String String) (now : Nat) : Option (Task × DB) :=
  match db.tasks.find? (fun t => t.id == taskId) with
  | none => none
  | some t =>
    let t1 := applyUpdateV1 t u
    let r2 : Task × DB :=
      match u.tags with
      | none => (t1, db)
      | some names => names.foldl (attachTagsV1 userId) ({ t1 with tags := [] }, db)
    let t2 := r2.1
    let db1 := r2.2
    let t3 :=
      if u.status == some TaskStatus.done && !(t2.status == TaskStatus.done)
          && optStrTruthy t2.description then
        match aiFeedback with
        | .ok f => { t2 with ai_feedback := some f }
        | .error _ => t2
      else t2
    let t4 := { t3 with updated_at := now }
    some (t4, { db1 with tasks := replaceTask db1.tasks t4 })

/-! ## Title validation (pydantic field constraints) -/

/-- Pydantic `Field(min_length=.., max_length=..)` on a string. -/
def fieldLenOk (minLen maxLen : Nat) (s : String) : Bool :=
  decide (minLen ≤ s.length) && decide (s.length ≤ maxLen)

/-- `schemas.TaskBase.title` (v1, lines 173-182):
`Field(..., min_length=1, max_length=255)`. -/
def titleAcceptedV1 (s : String) : Bool := fieldLenOk 1 255 s

/-- `schemas_v2.TaskBase.title` (lines 69-74):
`Field(..., min_length=3, max_length=200)`. -/
def titleAcceptedV2 (s : String) : Bool := fieldLenOk 3 200 s

/-! ## Concrete fixtures used by witnesses and counterexamples -/

/-- A freshly created task (all model defaults) owned by `"userA"`. -/
def tTodo : Task := { id := 1, title := "Read chapter 5", owner_id := "userA" }

/-- A one-task database. -/
def dbOne : DB := { tasks := [tTodo], next_task_id := 2 }

/-- The completed task produced by completing `tTodo` at time 5. -/
def tDone5 : Task := { tTodo with status := .done, completed_at := some 5, updated_at := 5 }

/-- `dbOne` after completing its task at time 5. -/
def dbOneDone : DB := { dbOne with tasks := [tDone5] }

/-- A patch that only sets `status` to done. -/
def patchDone : TaskUpdateV2 := { status := some .done }

/-! ## Helper lemmas -/

theorem applyUpdateV2_completed_at (t : Task) (u : TaskUpdateV2) :
    (applyUpdateV2 t u).completed_at = t.completed_at := by
  rcases u with ⟨ut, ud, up, us, udd, ue, ua⟩
  unfold applyUpdateV2
  cases ut <;> cases ud <;> cases up <;> cases us <;> cases udd <;> cases ue <;> cases ua <;> rfl

theorem applyUpdateV2_status (t : Task) (u : TaskUpdateV2) :
    (applyUpdateV2 t u).status = u.status.getD t.status := by
  rcases u with ⟨ut, ud, up, us, udd, ue, ua⟩
  unfold applyUpdateV2
  cases ut <;> cases ud <;> cases up <;> cases us <;> cases udd <;> cases ue <;> cases ua <;> rfl

theorem applyUpdateV1_completed_at (t : Task) (u : TaskUpdateV1) :
    (applyUpdateV1 t u).completed_at = t.completed_at := by
  rcases u with ⟨ut, ud, up, us, udf, ue, ua, udl, utg, uaf⟩
  unfold applyUpdateV1
  cases ut <;> cases ud <;> cases up <;> cases us <;> cases udf <;> cases ue <;> cases ua <;> rfl

theorem attachTagsV1_foldl_completed_at (userId : String) (names : List String) :
    ∀ (t : Task) (d : DB),
      ((names.foldl (attachTagsV1 userId) (t, d)).1).completed_at = t.completed_at := by
  induction names with
  | nil => intro t d; rfl
  | cons n rest ih =>
    intro t d
    rw [List.foldl_cons]
    exact ih _ _

theorem baseXp_cases (d : String) : baseXp d = 10 ∨ baseXp d = 15 ∨ baseXp d = 25 := by
  unfold baseXp
  split
  · right; right; rfl
  · split
    · right; left; rfl
    · left; rfl

/-! ## C1 — the XP formula -/

/-- C1 counterexample: with `estimated = 100` and `actual = 0` the code
skips the efficiency adjustment entirely (Python truthiness treats `0` as
unknown), while the claim's reference formula treats `actual = 0` as
`actual = 1` and adds the `+5` bonus. -/
theorem xp_formula_counterexample :
    xpReward "easy" (some 100) (some 0) ≠ xpRewardSpecFormula "easy" (some 100) (some 0) := by
  have h1 : xpReward "easy" (some 100) (some 0) = 10 := by
    norm_num [xpReward, baseXp, optNatTruthy] <;> decide
  have h2 : xpRewardSpecFormula "easy" (some 100) (some 0) = 15 := by
    norm_num [xpRewardSpecFormula, baseXp] <;> decide
  omega

/-- C1 amended: base XP is 10/15/25 by difficulty; the efficiency
adjustment applies only when both minute fields are non-null *and nonzero*
(`actual = 0` or `estimated = 0` gets no adjustment, so the `max(actual,1)`
guard is unreachable); for nonzero minutes the adjustment is `+5` when
`estimated/actual > 1.2` and `-5` floored at 5 when `< 0.8`; every reward
lies in {5, 10, 15, 20, 25, 30}; the two reference examples hold. -/
theorem xp_formula_amended :
    (∀ (d : String) (e a : Option Nat), xpReward d e a ∈ ([5, 10, 15, 20, 25, 30] : List Nat)) ∧
    xpReward "hard" (some 100) (some 70) = 30 ∧
    xpReward "easy" (some 60) (some 90) = 5 ∧
    (∀ (d : String) (e a : Nat), 1 ≤ e → 1 ≤ a →
      xpReward d (some e) (some a) =
        if 6 * a < 5 * e then baseXp d + 5
        else if 5 * e < 4 * a then max (baseXp d - 5) 5
        else baseXp d) ∧
    (∀ (d : String) (e a : Option Nat),
      optNatTruthy e = false ∨ optNatTruthy a = false → xpReward d e a = baseXp d) := by
  refine ⟨?_, ?_, ?_, ?_, ?_⟩
  · intro d e a
    have hb := baseXp_cases d
    simp only [xpReward]
    split
    · split
      · rcases hb with h | h | h <;> rw [h] <;> decide
      · split
        · rcases hb with h | h | h <;> rw [h] <;> decide
        · rcases hb with h | h | h <;> rw [h] <;> decide
    · rcases hb with h | h | h <;> rw [h] <;> decide
  · norm_num [xpReward, baseXp, optNatTruthy] <;> decide
  · norm_num [xpReward, baseXp, optNatTruthy] <;> decide
  · intro d e a he ha
    have he1 : optNatTruthy (some e) = true := by simp [optNatTruthy]; omega
    have ha1 : optNatTruthy (some a) = true := by simp [optNatTruthy]; omega
    have hmax : max (a : ℚ) 1 = (a : ℚ) := max_eq_left (by exact_mod_cast ha)
    have ha0 : (0 : ℚ) < (a : ℚ) := by exact_mod_cast Nat.lt_of_lt_of_le Nat.zero_lt_one ha
    have k1 : ((12 : ℚ) / 10 < (e : ℚ) / (a : ℚ)) ↔ 6 * a < 5 * e := by
      rw [div_lt_div_iff₀ (by norm_num) ha0]
      constructor
      · intro h
        have h' : 12 * a < e * 10 := by exact_mod_cast h
        omega
      · intro h
        have h' : (12 : ℕ) * a < e * 10 := by omega
        exact_mod_cast h'
    have k2 : ((e : ℚ) / (a : ℚ) < (8 : ℚ) / 10) ↔ 5 * e < 4 * a := by
      rw [div_lt_div_iff₀ ha0 (by norm_num)]
      constructor
      · intro h
        have h' : e * 10 < 8 * a := by exact_mod_cast h
        omega
      · intro h
        have h' : e * 10 < 8 * a := by omega
        exact_mod_cast h'
    simp only [xpReward, he1, ha1, Bool.and_self, if_true, Option.getD_some, hmax, k1, k2]
  · intro d e a h
    rcases h with h | h <;> simp [xpReward, h]

/-- C1 amended witness: the nonzero-minutes clause applied at
`difficulty = "easy"`, `estimated = 100`, `actual = 70`. -/
theorem xp_formula_amended_witness :
    xpReward "easy" (some 100) (some 70) =
      (if 6 * 70 < 5 * 100 then baseXp "easy" + 5
       else if 5 * 100 < 4 * 70 then max (baseXp "easy" - 5) 5
       else baseXp "easy") :=
  xp_formula_amended.2.2.2.1 "easy" 100 70 (by decide) (by decide)

/-! ## C2 — the completed_at ⟺ done invariant -/

/-- C2 counterexample: create a task, then patch its status to `done`
through v2 `update_task` — the resulting reachable task has
`status = done` but `completed_at = None`, breaking the claimed
equivalence. -/
theorem completed_iff_done_counterexample :
    (updateTaskV2 (createTaskV2 {} { title := "Read chapter 5" } "userA" 10).2
        (createTaskV2 {} { title := "Read chapter 5" } "userA" 10).1.id
        patchDone "userA" 20).map (fun r => (r.1.status, r.1.completed_at))
      = some (TaskStatus.done, none) := by decide

/-- C2 amended: create yields `status = todo` with `completed_at = None`
and complete yields `status = done` with `completed_at` set, but v2
`update_task` assigns the patched `status` verbatim while never touching
`completed_at`, so an update that changes done-ness breaks the
equivalence. -/
theorem completed_iff_done_amended :
    (∀ (db : DB) (tin : TaskCreateV2) (uid : String) (now : Nat),
      (createTaskV2 db tin uid now).1.status = .todo ∧
      (createTaskV2 db tin uid now).1.completed_at = none) ∧
    (∀ (db : DB) (tid : Nat) (uid : String) (act : Option Nat) (now : Nat) (t' : Task) (db' : DB),
      completeTaskV2 db tid uid act now = some (t', db') →
      t'.status = .done ∧ t'.completed_at = some now) ∧
    (∀ (db : DB) (tid : Nat) (u : TaskUpdateV2) (uid : String) (now : Nat)
        (t' : Task) (db' : DB) (t : Task),
      updateTaskV2 db tid u uid now = some (t', db') →
      getTaskV2 db tid uid = some t →
      t'.status = u.status.getD t.status ∧ t'.completed_at = t.completed_at) := by
  refine ⟨?_, ?_, ?_⟩
  · intro db tin uid now
    exact ⟨rfl, rfl⟩
  · intro db tid uid act now t' db' h
    unfold completeTaskV2 at h
    cases hg : getTaskV2 db tid uid <;> rw [hg] at h
    · exact absurd h (by simp)
    · simp only [Option.some.injEq, Prod.mk.injEq] at h
      obtain ⟨h1, -⟩ := h
      subst h1
      constructor
      · show (if optNatTruthy act = true then _ else _ : Task).status = _
        split <;> rfl
      · show (if optNatTruthy act = true then _ else _ : Task).completed_at = _
        split <;> rfl
  · intro db tid u uid now t' db' t h hg
    unfold updateTaskV2 at h
    rw [hg] at h
    simp only [Option.some.injEq, Prod.mk.injEq] at h
    obtain ⟨h1, -⟩ := h
    subst h1
    exact ⟨applyUpdateV2_status t u, applyUpdateV2_completed_at t u⟩

/-- C2 amended witness: the complete clause at the one-task database. -/
theorem completed_iff_done_amended_witness :
    tDone5.status = TaskStatus.done ∧ tDone5.completed_at = some 5 :=
  completed_iff_done_amended.2.1 dbOne 1 "userA" none 5 tDone5 dbOneDone (by decide)

/-! ## C3 — completing an already-done task -/

/-- C3 counterexample: completing the task of `dbOne` twice returns the
full XP (15 for the default `"medium"` difficulty) on *both* calls and
appends `"First Task Completed"` on both calls — the total across the two
calls is 30, not 15. -/
theorem double_completion_counterexample :
    completeTaskV1 dbOne 1 "userA" 5 =
      some (tDone5, 15, ["First Task Completed"], dbOneDone) ∧
    completeTaskV1 dbOneDone 1 "userA" 6 =
      some ({ tDone5 with completed_at := some 6, updated_at := 6 }, 15,
            ["First Task Completed"],
            { dbOneDone with tasks := [{ tDone5 with completed_at := some 6, updated_at := 6 }] }) := by
  constructor <;> decide

/-- Replacing the (unique) id-`tid` row by a task with the same owner,
status, difficulty and minute fields does not change the achievement
evaluation. -/
theorem checkTaskAchievements_invariant
    (L : List Task) (uid : String) (tid : Nat) (t1 t2 : Task)
    (hmem : ∀ x ∈ L, x.id = tid → x = t1)
    (hown : t2.owner_id = t1.owner_id)
    (hst : t2.status = t1.status)
    (hdiff : t2.difficulty = t1.difficulty)
    (hest : t2.estimated_minutes = t1.estimated_minutes)
    (hact : t2.actual_minutes = t1.actual_minutes) :
    checkTaskAchievements (L.map (fun x => if x.id = tid then t2 else x)) uid t2
      = checkTaskAchievements L uid t1 := by
  simp only [checkTaskAchievements]
  have hfc : L.filter ((fun x => x.owner_id == uid && x.status == TaskStatus.done)
        ∘ (fun x => if x.id = tid then t2 else x))
      = L.filter (fun x => x.owner_id == uid && x.status == TaskStatus.done) := by
    apply List.filter_congr
    intro x hx
    simp only [Function.comp]
    by_cases hxid : x.id = tid
    · have hx1 : x = t1 := hmem x hx hxid
      subst hx1
      rw [if_pos hxid, hown, hst]
    · rw [if_neg hxid]
  rw [List.filter_map, List.length_map, hfc, hdiff, hest, hact]

/-- C3 amended: the code has no already-done guard — a second completion
call on the state left by the first call succeeds again and returns the
*same* XP and the *same* achievement list (including
`"First Task Completed"` when the owner's completed count is still 1),
re-stamping only the timestamps. -/
theorem double_completion_amended :
    ∀ (db : DB) (tid : Nat) (uid : String) (n1 n2 : Nat) (t1 : Task) (xp1 : Nat)
        (a1 : List String) (db1 : DB),
      completeTaskV1 db tid uid n1 = some (t1, xp1, a1, db1) →
      completeTaskV1 db1 tid uid n2 =
        some ({ t1 with status := .done, completed_at := some n2, updated_at := n2 }, xp1, a1,
              { db1 with tasks := db1.tasks.map (fun x =>
                  if x.id = tid
                  then { t1 with status := .done, completed_at := some n2, updated_at := n2 }
                  else x) }) := by
  intro db tid uid n1 n2 t1 xp1 a1 db1 h
  unfold completeTaskV1 at h ⊢
  cases hf : db.tasks.find? (fun t => t.id == tid) <;> rw [hf] at h
  · exact absurd h (by simp)
  case some t =>
    have htid : t.id = tid := by
      have hp := List.find?_some hf
      simpa using hp
    simp only [Option.some.injEq, Prod.mk.injEq] at h
    obtain ⟨ht1, hxp, ha, hdb1⟩ := h
    subst ht1 hxp ha hdb1
    have hfind : (db.tasks.map (fun x =>
          if x.id = tid
          then { t with status := TaskStatus.done, completed_at := some n1, updated_at := n1 }
          else x)).find? (fun x => x.id == tid)
        = some { t with status := TaskStatus.done, completed_at := some n1, updated_at := n1 } := by
      rw [List.find?_map]
      have hpf : ((fun x : Task => x.id == tid) ∘ (fun x =>
          if x.id = tid
          then { t with status := TaskStatus.done, completed_at := some n1, updated_at := n1 }
          else x)) = fun x : Task => x.id == tid := by
        funext x
        simp only [Function.comp]
        by_cases hx : x.id = tid
        · rw [if_pos hx]
          simp [htid, hx]
        · rw [if_neg hx]
      rw [hpf, hf]
      simp [htid]
    rw [hfind]
    simp only [Option.some.injEq, Prod.mk.injEq, true_and, and_true]
    apply checkTaskAchievements_invariant
    · intro x hx hxid
      obtain ⟨y, hy, rfl⟩ := List.mem_map.mp hx
      by_cases hyid : y.id = tid
      · rw [if_pos hyid]
      · rw [if_neg hyid] at hxid ⊢
        exact absurd hxid hyid
    · rfl
    · rfl
    · rfl
    · rfl
    · rfl

/-- C3 amended witness: the second completion of `dbOneDone`'s task
re-awards the same 15 XP and re-appends `"First Task Completed"`. -/
theorem double_completion_amended_witness :
    completeTaskV1 dbOneDone 1 "userA" 6 =
      some ({ tDone5 with status := .done, completed_at := some 6, updated_at := 6 }, 15,
            ["First Task Completed"],
            { dbOneDone with tasks := dbOneDone.tasks.map (fun x =>
                if x.id = 1
                then { tDone5 with status := .done, completed_at := some 6, updated_at := 6 }
                else x) }) :=
  double_completion_amended dbOne 1 "userA" 5 6 tDone5 15 ["First Task Completed"] dbOneDone
    (by decide)

/-! ## C4 — status-to-done updates and the completion path -/

/-- C4 counterexample: a v2 update that patches status from `todo` to
`done` does not trigger the completion path even once — `completed_at`
stays `None` on the returned task. -/
theorem update_completion_path_counterexample :
    updateTaskV2 dbOne 1 patchDone "userA" 20 =
      some ({ tTodo with status := .done, updated_at := 20 },
            { dbOne with tasks := [{ tTodo with status := .done, updated_at := 20 }] }) ∧
    ({ tTodo with status := .done, updated_at := 20 } : Task).completed_at = none := by
  constructor <;> decide

/-- C4 amended: update never triggers the completion path at all — both
the v1 and the v2 `update_task` leave `completed_at` unchanged (and compute
no XP), for every patch, including one that moves status to done; the
completion path runs only in the dedicated complete operations. -/
theorem update_completion_path_amended :
    (∀ (db : DB) (tid : Nat) (u : TaskUpdateV2) (uid : String) (now : Nat)
        (t' : Task) (db' : DB) (t : Task),
      updateTaskV2 db tid u uid now = some (t', db') →
      getTaskV2 db tid uid = some t →
      t'.completed_at = t.completed_at) ∧
    (∀ (db : DB) (tid : Nat) (u : TaskUpdateV1) (uid : String) (ai : Except String String)
        (now : Nat) (t' : Task) (db' : DB) (t : Task),
      updateTaskV1 db tid u uid ai now = some (t', db') →
      db.tasks.find? (fun x => x.id == tid) = some t →
      t'.completed_at = t.completed_at) := by
  constructor
  · intro db tid u uid now t' db' t h hg
    unfold updateTaskV2 at h
    rw [hg] at h
    simp only [Option.some.injEq, Prod.mk.injEq] at h
    obtain ⟨h1, -⟩ := h
    subst h1
    exact applyUpdateV2_completed_at t u
  · intro db tid u uid ai now t' db' t h hg
    unfold updateTaskV1 at h
    rw [hg] at h
    simp only [Option.some.injEq, Prod.mk.injEq] at h
    obtain ⟨h1, -⟩ := h
    subst h1
    show (if _ then _ else _ : Task).completed_at = _
    have h2 :
        ((match u.tags with
          | none => (applyUpdateV1 t u, db)
          | some names =>
            names.foldl (attachTagsV1 uid) ({ applyUpdateV1 t u with tags := [] }, db)).1).completed_at
          = t.completed_at := by
      cases u.tags with
      | none => exact applyUpdateV1_completed_at t u
      | some names =>
        rw [attachTagsV1_foldl_completed_at]
        exact applyUpdateV1_completed_at t u
    split
    · split
      · exact h2
      · exact h2
    · exact h2

/-- C4 amended witness: the v2 clause at the one-task database with a
status-to-done patch. -/
theorem update_completion_path_amended_witness :
    ({ tTodo with status := .done, updated_at := 20 } : Task).completed_at = tTodo.completed_at :=
  update_completion_path_amended.1 dbOne 1 patchDone "userA" 20
    { tTodo with status := .done, updated_at := 20 }
    { dbOne with tasks := [{ tTodo with status := .done, updated_at := 20 }] }
    tTodo (by decide) (by decide)

/-! ## C5 / C6 — tag resolution -/

/-- Modelled from the spec (§4.1): the sequence of stored tag names the
resolver should produce — trim each name, skip the ones empty after
trimming, skip the ones whose lower-cased trimmed key was already seen in
this call, keep the first-seen trimmed casing. -/
def tagNamesSpec : List String → List String → List String
  | [], _ => []
  | n :: rest, seen =>
    if pyStrip n = "" then tagNamesSpec rest seen
    else if seen.contains (pyLower (pyStrip n)) then tagNamesSpec rest seen
    else pyStrip n :: tagNamesSpec rest (pyLower (pyStrip n) :: seen)

theorem resolveTagsLoop_names (names : List String) :
    ∀ (db : DB) (seen : List String) (acc : List Tag),
      ((resolveTagsLoop names db seen acc).1).map Tag.name
        = acc.reverse.map Tag.name ++ tagNamesSpec names seen := by
  induction names with
  | nil =>
    intro db seen acc
    simp [resolveTagsLoop, tagNamesSpec]
  | cons n rest ih =>
    intro db seen acc
    simp only [resolveTagsLoop, tagNamesSpec]
    by_cases h0 : n = ""
    · rw [if_pos h0]
      have hs : pyStrip n = "" := by rw [h0]; rfl
      rw [if_pos hs]
      exact ih db seen acc
    · rw [if_neg h0]
      by_cases h1 : pyStrip n = ""
      · rw [if_pos h1, if_pos h1]
        exact ih db seen acc
      · rw [if_neg h1, if_neg h1]
        by_cases h2 : seen.contains (pyLower (pyStrip n))
        · rw [if_pos h2, if_pos h2]
          exact ih db seen acc
        · rw [if_neg h2, if_neg h2]
          cases hf : db.tags.find? (fun t => t.name == pyStrip n) with
          | some t =>
            have ht : t.name = pyStrip n := by
              have h := List.find?_some hf
              simpa using h
            dsimp only
            rw [ih]
            simp [ht]
          | none =>
            dsimp only
            rw [ih]
            simp

/-- C5: within one call the resolver's output names are exactly the
trimmed, key-deduplicated input names (first casing wins), and the
reference example `["DSA", "dsa", " DSA "]` against an empty table yields
exactly one tag row, named `"DSA"`. -/
theorem tag_resolution_idempotent :
    (∀ (db : DB) (names : List String),
      ((resolveOrCreateTags db (some names)).1).map Tag.name = tagNamesSpec names []) ∧
    resolveOrCreateTags {} (some ["DSA", "dsa", " DSA "]) =
      ([{ id := 1, name := "DSA" }],
       { tags := [{ id := 1, name := "DSA" }], next_tag_id := 2 }) := by
  constructor
  · intro db names
    simp only [resolveOrCreateTags]
    by_cases h : names = []
    · subst h
      simp [tagNamesSpec]
    · rw [if_neg h]
      simpa using resolveTagsLoop_names names db [] []
  · decide

/-- A tag owned by `"userB"`, with a non-default color. -/
def tagB : Tag := { id := 7, name := "DSA", color := "#FF0000", user_id := some "userB" }

/-- A database holding only `tagB`. -/
def dbTagB : DB := { tags := [tagB], next_tag_id := 8 }

/-- C6 counterexample: `resolve_or_create_tags` looks tags up by name only
— a request resolving `"DSA"` on behalf of any other user still receives
`tagB`, the tag owned by `"userB"`; and a tag it creates carries no owner
at all. -/
theorem tag_owner_scope_counterexample :
    (resolveOrCreateTags dbTagB (some ["DSA"])).1 = [tagB] ∧
    ((resolveOrCreateTags {} (some ["DSA"])).1).map Tag.user_id = [none] := by
  constructor <;> decide

/-- C6 amended: in `tasks_utils.resolve_or_create_tags` the lookup matches
on the exact trimmed name only, ignoring the owner (a same-named tag of a
different user is returned), and a miss inserts the trimmed name with *no*
owner and the default color, flushed immediately with its id assigned; the
owner-scoped variant exists only in the v1 service's `_get_or_create_tag`,
which filters by name and owner and creates the tag with that owner and the
default color. -/
theorem tag_owner_scope_amended :
    (∀ (db : DB) (n : String) (t : Tag), n ≠ "" → pyStrip n ≠ "" →
      db.tags.find? (fun x => x.name == pyStrip n) = some t →
      resolveOrCreateTags db (some [n]) = ([t], db)) ∧
    (∀ (db : DB) (n : String), n ≠ "" → pyStrip n ≠ "" →
      db.tags.find? (fun x => x.name == pyStrip n) = none →
      resolveOrCreateTags db (some [n]) =
        ([{ id := db.next_tag_id, name := pyStrip n }],
         insertTag db { id := db.next_tag_id, name := pyStrip n })) ∧
    (∀ (db : DB) (n uid : String) (t : Tag),
      db.tags.find? (fun x => x.name == n && x.user_id == some uid) = some t →
      getOrCreateTagV1 db n uid = (t.id, db)) ∧
    (∀ (db : DB) (n uid : String),
      db.tags.find? (fun x => x.name == n && x.user_id == some uid) = none →
      getOrCreateTagV1 db n uid =
        (db.next_tag_id,
         insertTag db { id := db.next_tag_id, name := n, user_id := some uid })) := by
  refine ⟨?_, ?_, ?_, ?_⟩
  · intro db n t hn hs hf
    simp only [resolveOrCreateTags]
    rw [if_neg (by simp : ¬([n] = []))]
    simp only [resolveTagsLoop, if_neg hn, if_neg hs]
    simp [hf, resolveTagsLoop]
  · intro db n hn hs hf
    simp only [resolveOrCreateTags]
    rw [if_neg (by simp : ¬([n] = []))]
    simp only [resolveTagsLoop, if_neg hn, if_neg hs]
    simp [hf, resolveTagsLoop]
  · intro db n uid t hf
    unfold getOrCreateTagV1
    rw [hf]
  · intro db n uid hf
    unfold getOrCreateTagV1
    rw [hf]

/-- C6 amended witness: resolving `"DSA"` against `dbTagB` returns the tag
owned by `"userB"` unchanged. -/
theorem tag_owner_scope_amended_witness :
    resolveOrCreateTags dbTagB (some ["DSA"]) = ([tagB], dbTagB) :=
  tag_owner_scope_amended.1 dbTagB "DSA" tagB (by decide) (by decide) (by decide)

/-! ## C7 — ownership isolation in the v2 service -/

/-- C7: when no task with the requested id belongs to `ownerB`, every
owner-scoped v2 operation reports not-found (`None`, `false`), even if the
id itself exists under another owner. -/
theorem ownership_isolation :
    ∀ (db : DB) (tid : Nat) (ownerB : String) (u : TaskUpdateV2) (act : Option Nat) (now : Nat),
      (∀ t ∈ db.tasks, t.id = tid → t.owner_id ≠ ownerB) →
      getTaskV2 db tid ownerB = none ∧
      updateTaskV2 db tid u ownerB now = none ∧
      deleteTaskV2 db tid ownerB = (false, db) ∧
      completeTaskV2 db tid ownerB act now = none := by
  intro db tid ownerB u act now h
  have hg : getTaskV2 db tid ownerB = none := by
    unfold getTaskV2
    rw [List.find?_eq_none]
    intro x hx
    simp only [Bool.and_eq_true, beq_iff_eq, not_and]
    intro hid
    exact h x hx hid
  refine ⟨hg, ?_, ?_, ?_⟩ <;> simp [updateTaskV2, deleteTaskV2, completeTaskV2, hg]

/-- C7 witness: owner `"userB"` cannot see, update, delete or complete the
task that `"userA"` owns in `dbOne`. -/
theorem ownership_isolation_witness :
    getTaskV2 dbOne 1 "userB" = none ∧
    updateTaskV2 dbOne 1 patchDone "userB" 20 = none ∧
    deleteTaskV2 dbOne 1 "userB" = (false, dbOne) ∧
    completeTaskV2 dbOne 1 "userB" none 20 = none :=
  ownership_isolation dbOne 1 "userB" patchDone none 20 (by decide)

/-! ## C8 — pagination -/

/-- One of five matching tasks with distinct descending due dates. -/
def tFive (i : Nat) : Task :=
  { id := i, title := "T", owner_id := "userA", due_date := some (60 - 10 * i) }

/-- A database with exactly five tasks matching the empty filter set for
`"userA"`. -/
def dbFive : DB :=
  { tasks := [tFive 1, tFive 2, tFive 3, tFive 4, tFive 5], next_task_id := 6 }

/-- C8 counterexample: over 5 matching tasks the two pages
`(skip=0, limit=2)` and `(skip=2, limit=2)` hold 2 items each and report
`total = 5`, but they cannot cover all 5 — the fifth task is in neither
page. -/
theorem pagination_counterexample :
    getUserTasksV2 dbFive "userA" none none 0 2 none = ([tFive 1, tFive 2], 5) ∧
    getUserTasksV2 dbFive "userA" none none 2 2 none = ([tFive 3, tFive 4], 5) ∧
    tFive 5 ∈ dbFive.tasks.filter (matchesFiltersV2 "userA" none none none) ∧
    tFive 5 ∉ ([tFive 1, tFive 2] : List Task) ∧
    tFive 5 ∉ ([tFive 3, tFive 4] : List Task) := by
  refine ⟨?_, ?_, ?_, ?_, ?_⟩ <;> decide

/-- Splitting a duplicate-free 5-element list into pages of 2 at offsets
0, 2 and 4: the first two pages have 2 elements each and are disjoint, the
third has 1, and the three together are the whole list. -/
theorem take_drop_pages {α : Type} (S : List α) (hnd : S.Nodup) (hlen : S.length = 5) :
    (S.take 2).length = 2 ∧ ((S.drop 2).take 2).length = 2 ∧ ((S.drop 4).take 2).length = 1 ∧
    List.Disjoint (S.take 2) ((S.drop 2).take 2) ∧
    (∀ t, t ∈ S ↔ (t ∈ S.take 2 ∨ t ∈ (S.drop 2).take 2 ∨ t ∈ (S.drop 4).take 2)) := by
  have e1 : S.take 2 ++ S.drop 2 = S := List.take_append_drop 2 S
  have e2 : (S.drop 2).take 2 ++ (S.drop 2).drop 2 = S.drop 2 := List.take_append_drop 2 (S.drop 2)
  have e3 : (S.drop 2).drop 2 = S.drop 4 := by rw [List.drop_drop]
  have e4 : (S.drop 4).take 2 = S.drop 4 :=
    List.take_of_length_le (by simp [List.length_drop, hlen])
  refine ⟨?_, ?_, ?_, ?_, ?_⟩
  · simp [List.length_take, hlen]
  · simp [List.length_take, List.length_drop, hlen]
  · simp [List.length_take, List.length_drop, hlen]
  · have hd : List.Disjoint (S.take 2) (S.drop 2) := List.disjoint_take_drop hnd (le_refl 2)
    exact fun a ha hb => hd ha (List.take_subset _ _ hb)
  · intro t
    constructor
    · intro ht
      have h1 : t ∈ S.take 2 ++ S.drop 2 := by rw [e1]; exact ht
      rcases List.mem_append.mp h1 with h | h
      · exact Or.inl h
      · have h2 : t ∈ (S.drop 2).take 2 ++ (S.drop 2).drop 2 := by rw [e2]; exact h
        rcases List.mem_append.mp h2 with h' | h'
        · exact Or.inr (Or.inl h')
        · rw [e3, ← e4] at h'
          exact Or.inr (Or.inr h')
    · intro ht
      rcases ht with h | h | h
      · exact List.take_subset _ _ h
      · exact List.drop_subset _ _ (List.take_subset _ _ h)
      · exact List.drop_subset _ _ (List.take_subset _ _ h)

/-- C8 amended: over any filtered set of exactly 5 tasks (in a table
without duplicate rows) the pages `(skip=0, limit=2)` and
`(skip=2, limit=2)` are disjoint 2-element pages and both report
`total = 5`, but the two pages cover only 4 of the 5 — the third page
`(skip=4, limit=2)` holds the remaining task, and the three pages together
are exactly the filtered set. -/
theorem pagination_amended :
    ∀ (db : DB) (uid : String) (st : Option TaskStatus) (pr : Option TaskPriority)
        (se : Option String),
      db.tasks.Nodup →
      (db.tasks.filter (matchesFiltersV2 uid st pr se)).length = 5 →
      (getUserTasksV2 db uid st pr 0 2 se).2 = 5 ∧
      (getUserTasksV2 db uid st pr 2 2 se).2 = 5 ∧
      (getUserTasksV2 db uid st pr 0 2 se).1.length = 2 ∧
      (getUserTasksV2 db uid st pr 2 2 se).1.length = 2 ∧
      (getUserTasksV2 db uid st pr 4 2 se).1.length = 1 ∧
      List.Disjoint (getUserTasksV2 db uid st pr 0 2 se).1 (getUserTasksV2 db uid st pr 2 2 se).1 ∧
      (∀ t, t ∈ db.tasks.filter (matchesFiltersV2 uid st pr se) ↔
        (t ∈ (getUserTasksV2 db uid st pr 0 2 se).1 ∨
         t ∈ (getUserTasksV2 db uid st pr 2 2 se).1 ∨
         t ∈ (getUserTasksV2 db uid st pr 4 2 se).1)) := by
  intro db uid st pr se hnd hlen
  have hperm := List.perm_insertionSort taskLe (db.tasks.filter (matchesFiltersV2 uid st pr se))
  have hSlen : (List.insertionSort taskLe
      (db.tasks.filter (matchesFiltersV2 uid st pr se))).length = 5 := by
    rw [hperm.length_eq]
    exact hlen
  have hSnd : (List.insertionSort taskLe
      (db.tasks.filter (matchesFiltersV2 uid st pr se))).Nodup :=
    hperm.nodup_iff.mpr (hnd.filter _)
  obtain ⟨l1, l2, l3, hdisj, hcov⟩ := take_drop_pages _ hSnd hSlen
  exact ⟨hlen, hlen, l1, l2, l3, hdisj,
    fun t => hperm.mem_iff.symm.trans (hcov t)⟩

/-- C8 amended witness: the general pagination statement applied to
`dbFive`. -/
theorem pagination_amended_witness :
    (getUserTasksV2 dbFive "userA" none none 0 2 none).2 = 5 ∧
    (getUserTasksV2 dbFive "userA" none none 2 2 none).2 = 5 ∧
    (getUserTasksV2 dbFive "userA" none none 0 2 none).1.length = 2 ∧
    (getUserTasksV2 dbFive "userA" none none 2 2 none).1.length = 2 ∧
    (getUserTasksV2 dbFive "userA" none none 4 2 none).1.length = 1 ∧
    List.Disjoint (getUserTasksV2 dbFive "userA" none none 0 2 none).1
      (getUserTasksV2 dbFive "userA" none none 2 2 none).1 ∧
    (∀ t, t ∈ dbFive.tasks.filter (matchesFiltersV2 "userA" none none none) ↔
      (t ∈ (getUserTasksV2 dbFive "userA" none none 0 2 none).1 ∨
       t ∈ (getUserTasksV2 dbFive "userA" none none 2 2 none).1 ∨
       t ∈ (getUserTasksV2 dbFive "userA" none none 4 2 none).1)) :=
  pagination_amended dbFive "userA" none none none (by decide) (by decide)

/-! ## C9 — title length validation -/

/-- C9 counterexample: `"ab"` has length 2 ∈ [1, 255], so the claim says it
passes validation, but the v2 task schema (`schemas_v2.TaskBase`) rejects
it (`min_length=3`). -/
theorem title_validation_counterexample :
    1 ≤ ("ab" : String).length ∧ ("ab" : String).length ≤ 255 ∧
      titleAcceptedV2 "ab" = false := by decide

/-- C9 amended: the v1 task schema (`schemas.TaskBase`) accepts exactly the
titles of length in [1, 255]; the v2 task schema (`schemas_v2.TaskBase`)
accepts exactly the titles of length in [3, 200]. -/
theorem title_validation_amended :
    (∀ s : String, titleAcceptedV1 s = true ↔ 1 ≤ s.length ∧ s.length ≤ 255) ∧
    (∀ s : String, titleAcceptedV2 s = true ↔ 3 ≤ s.length ∧ s.length ≤ 200) := by
  constructor <;> intro s <;> simp [titleAcceptedV1, titleAcceptedV2, fieldLenOk]

/-! ## C10 — AI failure during v1 task creation -/

/-- C10: the v1 `create_task` never reaches the AI call — the
`Task(**task_data, ...)` constructor raises `TypeError` on the `deadline`
key produced by `schemas.TaskBase` (the model column is `due_date`), for
every input. -/
theorem createTaskV1_deadline_type_error :
    ∀ (db : DB) (tin : TaskCreateV1) (uid : String) (ai : Except String (List Subtask)) (now : Nat),
      createTaskV1 db tin uid ai now =
        .error "deadline is an invalid keyword argument for Task" := by
  intro db tin uid ai now
  rfl

end SP
